import Mathlib

/-!
Shallow embedding of `src/backend/server.py` (nursery management API).

Conventions of the embedding:
- MongoDB collections are lists of stored documents; a stored document is the
  pydantic payload together with the generated `_id` (`oid`, modelled as the
  numeric value of the 24-hex-digit ObjectId).
- `datetime` values are modelled as natural-number timestamps (seconds);
  `timedelta(days=30)` is `30 * 86400` seconds.
- Python `float` arithmetic is modelled as exact rational arithmetic; Python
  `round(x, 2)` is round-half-to-even at two decimals (`pyRound2`).
- An HTTP error response is a constructor of `ApiError`; an uncaught Python
  exception surfaces as `ApiError.serverError` (HTTP 500).
- bcrypt hashing (`pwd_context.hash` / `pwd_context.verify`) is modelled
  abstractly: the hash is a salted token that `verify_password` accepts exactly
  for the password it was derived from.
- a JWT is modelled as its decoded content (claims, signing key, algorithm);
  `jwt.decode` checks key, algorithm and expiry.
-/

/-- HTTP-level error outcomes of the API (section 7 of the spec); `serverError`
stands for an unhandled exception propagating as a generic 500. -/
inductive ApiError where
  | duplicateUser
  | invalidCredentials
  | tokenExpired
  | tokenInvalid
  | notFound
  | serverError
deriving DecidableEq, Repr

/-- HTTP status code attached to each error by the handlers
(`HTTPException(status_code=...)`; 500 for an unhandled exception). -/
def ApiError.statusCode : ApiError → Nat
  | .duplicateUser => 400
  | .invalidCredentials => 401
  | .tokenExpired => 401
  | .tokenInvalid => 401
  | .notFound => 404
  | .serverError => 500

/-- Pydantic model `SeedlingReceived` (server.py lines 51-59). -/
structure SeedlingReceived where
  date : String
  type : String
  supplier : String
  price : ℚ
  lot_number : String
  quantity : ℤ
  user_id : String
  created_at : ℕ
deriving DecidableEq, Repr

/-- Pydantic model `DeliveryNote` (server.py lines 61-67). -/
structure DeliveryNote where
  date : String
  type : String
  expected_quantity : ℤ
  actual_quantity : ℤ
  user_id : String
  created_at : ℕ
deriving DecidableEq, Repr

/-- Pydantic model `DeadSeedling` (server.py lines 69-74). -/
structure DeadSeedling where
  date : String
  type : String
  quantity : ℤ
  user_id : String
  created_at : ℕ
deriving DecidableEq, Repr

/-- Pydantic model `DiscardedSeedling` (server.py lines 76-81). -/
structure DiscardedSeedling where
  date : String
  type : String
  quantity : ℤ
  user_id : String
  created_at : ℕ
deriving DecidableEq, Repr

/-- Pydantic model `NurseryProduced` (server.py lines 83-90). -/
structure NurseryProduced where
  date : String
  type : String
  quantity : ℤ
  parent_plant : String
  propagation_method : String
  user_id : String
  created_at : ℕ
deriving DecidableEq, Repr

/-- Pydantic model `DistributedSeedling` (server.py lines 92-99). -/
structure DistributedSeedling where
  date : String
  type : String
  quantity : ℤ
  destination : String
  location : String
  user_id : String
  created_at : ℕ
deriving DecidableEq, Repr

/-- Document as persisted in a MongoDB collection: the payload fields plus the
generated `_id` (its numeric ObjectId value). -/
structure Stored (α : Type) where
  data : α
  oid : ℕ
deriving DecidableEq, Repr

/-- MongoDB collection: a list of stored documents, in natural (insertion)
order. -/
abbrev Collection (α : Type) := List (Stored α)

/-- State of the `db` database handle: one collection per record kind. -/
structure Database where
  seedlings_received : Collection SeedlingReceived := []
  delivery_notes : Collection DeliveryNote := []
  dead_seedlings : Collection DeadSeedling := []
  discarded_seedlings : Collection DiscardedSeedling := []
  nursery_produced : Collection NurseryProduced := []
  distributed_seedlings : Collection DistributedSeedling := []

/-- Field names of the pydantic response model `DashboardStats`
(server.py lines 101-108), in declaration order. -/
def dashboardStatsFieldNames : List String :=
  ["total_received", "total_dead", "total_discarded", "total_produced",
   "total_distributed", "survival_rate", "total_in_nursery"]

/-- Keys of the dict literally returned by `get_dashboard_stats`
(server.py lines 321-328). -/
def dashboardResponseKeys : List String :=
  ["total_received", "total_dead", "total_discarded", "total_produced",
   "survival_rate", "total_in_nursery"]

/-- FastAPI response-model validation: every required field of the response
model must be present among the keys of the returned dict (all
`DashboardStats` fields are required: none has a default). -/
def responseModelAccepts (required provided : List String) : Bool :=
  required.all fun k => provided.contains k

/-- Python `round` to an integer: round-half-to-even (banker's rounding),
modelled on exact rationals. -/
def pyRoundInt (q : ℚ) : ℤ :=
  if q - ⌊q⌋ < 1/2 then ⌊q⌋
  else if 1/2 < q - ⌊q⌋ then ⌊q⌋ + 1
  else if ⌊q⌋ % 2 = 0 then ⌊q⌋ else ⌊q⌋ + 1

/-- Python `round(x, 2)`: round-half-to-even at two decimal places. -/
def pyRound2 (q : ℚ) : ℚ := (pyRoundInt (q * 100) : ℚ) / 100

/-- Result of the dict literally returned by `get_dashboard_stats`
(server.py lines 321-328): exactly the six keys it carries, typed. -/
structure DashboardPayload where
  total_received : ℤ
  total_dead : ℤ
  total_discarded : ℤ
  total_produced : ℤ
  survival_rate : ℚ
  total_in_nursery : ℤ
deriving DecidableEq, Repr

/-- Aggregation body of `get_dashboard_stats` (server.py lines 311-328):
totals by summing `quantity`, `total_in_nursery`, the guarded survival rate,
and `round(survival_rate, 2)` in the returned dict. -/
def computeStats (received : Collection SeedlingReceived)
    (dead : Collection DeadSeedling) (discarded : Collection DiscardedSeedling)
    (produced : Collection NurseryProduced) : DashboardPayload :=
  let total_received := (received.map fun s => s.data.quantity).sum
  let total_dead := (dead.map fun s => s.data.quantity).sum
  let total_discarded := (discarded.map fun s => s.data.quantity).sum
  let total_produced := (produced.map fun s => s.data.quantity).sum
  let total_in_nursery := total_received + total_produced - total_dead - total_discarded
  let total_input := total_received + total_produced
  let survival_rate : ℚ :=
    if total_input > 0 then ((total_in_nursery : ℚ) / (total_input : ℚ)) * 100 else 0
  { total_received := total_received
    total_dead := total_dead
    total_discarded := total_discarded
    total_produced := total_produced
    survival_rate := pyRound2 survival_rate
    total_in_nursery := total_in_nursery }

/-- Handler `get_dashboard_stats` (server.py lines 303-328): fetches the four
streams of the caller (each `find(\x7b"user_id": username\x7d).to_list(1000)`,
i.e. owner filter capped at 1000 in natural order) and aggregates them. -/
def get_dashboard_stats (username : String) (db : Database) : DashboardPayload :=
  let received := (db.seedlings_received.filter fun s => s.data.user_id == username).take 1000
  let dead := (db.dead_seedlings.filter fun s => s.data.user_id == username).take 1000
  let discarded := (db.discarded_seedlings.filter fun s => s.data.user_id == username).take 1000
  let produced := (db.nursery_produced.filter fun s => s.data.user_id == username).take 1000
  computeStats received dead discarded produced

/-- Validity predicate of `bson.ObjectId(id)` on a string argument: exactly 24
hexadecimal digits; anything else raises `bson.errors.InvalidId`. -/
def isValidObjectIdString (s : String) : Bool :=
  s.length == 24 && s.toList.all fun c => c.isDigit || ('a' ≤ c && c ≤ 'f') || ('A' ≤ c && c ≤ 'F')

/-- Numeric value of one hexadecimal digit. -/
def hexDigitValue (c : Char) : ℕ :=
  if c.isDigit then c.toNat - '0'.toNat
  else if 'a' ≤ c && c ≤ 'f' then c.toNat - 'a'.toNat + 10
  else c.toNat - 'A'.toNat + 10

/-- Conversion `ObjectId(id)` of the delete handlers: `some` numeric value on
a well-formed 24-hex-digit string, `none` when `bson.errors.InvalidId` is
raised. -/
def objectIdFromString (s : String) : Option ℕ :=
  if isValidObjectIdString s then
    some (s.toList.foldl (fun acc c => 16 * acc + hexDigitValue c) 0)
  else none

/-- Semantics of MongoDB `delete_one`: remove the first document matching the
filter, returning the deleted count (0 or 1) and the remaining collection. -/
def deleteOneBy (p : α → Bool) : List α → ℕ × List α
  | [] => (0, [])
  | x :: xs =>
      if p x then (1, xs)
      else
        let rest := deleteOneBy p xs
        (rest.1, x :: rest.2)

/-- Handler `create_seedling_received` (server.py lines 165-171): the payload
dict gets its `user_id` overwritten with the authenticated username, is
inserted, and is returned with its generated id. -/
def create_seedling_received (seedling : SeedlingReceived) (username : String)
    (newOid : ℕ) (coll : Collection SeedlingReceived) :
    Stored SeedlingReceived × Collection SeedlingReceived :=
  let stored : Stored SeedlingReceived :=
    { data := { seedling with user_id := username }, oid := newOid }
  (stored, coll ++ [stored])

/-- Handler `get_seedlings_received` (server.py lines 173-178):
`find(\x7b"user_id": username\x7d).sort("created_at", -1).to_list(1000)` —
owner filter, sort by `created_at` descending, first 1000 results. -/
def get_seedlings_received (username : String) (coll : Collection SeedlingReceived) :
    Collection SeedlingReceived :=
  ((coll.filter fun s => s.data.user_id == username).insertionSort
      fun a b => b.data.created_at ≤ a.data.created_at).take 1000

/-- Handler `delete_seedling_received` (server.py lines 180-185):
`delete_one(\x7b"_id": ObjectId(id), "user_id": username\x7d)`, 404 when
nothing was deleted; a malformed id makes `ObjectId(id)` raise before the
store is touched, surfacing as a generic 500. -/
def delete_seedling_received (id : String) (username : String)
    (coll : Collection SeedlingReceived) :
    Except ApiError String × Collection SeedlingReceived :=
  match objectIdFromString id with
  | none => (.error .serverError, coll)
  | some oid =>
      let res := deleteOneBy (fun d => d.oid == oid && d.data.user_id == username) coll
      if res.1 == 0 then (.error .notFound, res.2)
      else (.ok "Deleted successfully", res.2)

/-- Handler `create_delivery_note` (server.py lines 188-194). -/
def create_delivery_note (note : DeliveryNote) (username : String)
    (newOid : ℕ) (coll : Collection DeliveryNote) :
    Stored DeliveryNote × Collection DeliveryNote :=
  let stored : Stored DeliveryNote :=
    { data := { note with user_id := username }, oid := newOid }
  (stored, coll ++ [stored])

/-- Handler `create_dead_seedling` (server.py lines 211-217). -/
def create_dead_seedling (seedling : DeadSeedling) (username : String)
    (newOid : ℕ) (coll : Collection DeadSeedling) :
    Stored DeadSeedling × Collection DeadSeedling :=
  let stored : Stored DeadSeedling :=
    { data := { seedling with user_id := username }, oid := newOid }
  (stored, coll ++ [stored])

/-- Handler `create_discarded_seedling` (server.py lines 234-240). -/
def create_discarded_seedling (seedling : DiscardedSeedling) (username : String)
    (newOid : ℕ) (coll : Collection DiscardedSeedling) :
    Stored DiscardedSeedling × Collection DiscardedSeedling :=
  let stored : Stored DiscardedSeedling :=
    { data := { seedling with user_id := username }, oid := newOid }
  (stored, coll ++ [stored])

/-- Handler `create_nursery_produced` (server.py lines 257-263). -/
def create_nursery_produced (seedling : NurseryProduced) (username : String)
    (newOid : ℕ) (coll : Collection NurseryProduced) :
    Stored NurseryProduced × Collection NurseryProduced :=
  let stored : Stored NurseryProduced :=
    { data := { seedling with user_id := username }, oid := newOid }
  (stored, coll ++ [stored])

/-- Handler `create_distributed_seedling` (server.py lines 280-286). -/
def create_distributed_seedling (seedling : DistributedSeedling) (username : String)
    (newOid : ℕ) (coll : Collection DistributedSeedling) :
    Stored DistributedSeedling × Collection DistributedSeedling :=
  let stored : Stored DistributedSeedling :=
    { data := { seedling with user_id := username }, oid := newOid }
  (stored, coll ++ [stored])

/-- Request model `UserRegister` (server.py lines 38-40). -/
structure UserRegister where
  username : String
  password : String
deriving DecidableEq, Repr

/-- Request model `UserLogin` (server.py lines 42-44). -/
structure UserLogin where
  username : String
  password : String
deriving DecidableEq, Repr

/-- Abstract bcrypt hash: `pwd_context.hash` picks a fresh salt, and the hash
verifies only against the password it was derived from. The password argument
is retained solely to define verification; the code treats the stored value as
an uninvertible token. -/
inductive Hash where
  | bcrypt (salt : ℕ) (ofPassword : String)
deriving DecidableEq, Repr

/-- Helper `verify_password` (server.py lines 111-112): `pwd_context.verify`. -/
def verify_password (plain_password : String) : Hash → Bool
  | .bcrypt _ p => plain_password == p

/-- Helper `get_password_hash` (server.py lines 114-115): `pwd_context.hash`
with a fresh salt. -/
def get_password_hash (salt : ℕ) (password : String) : Hash :=
  .bcrypt salt password

/-- Constant `SECRET_KEY` (server.py line 29). -/
def SECRET_KEY : String := "nursery_secret_key_change_in_production"

/-- Constant `ALGORITHM` (server.py line 30). -/
def ALGORITHM : String := "HS256"

/-- JWT modelled by its decoded content: claims `sub` and `exp`, plus the key
and algorithm it was signed with (signature checking becomes comparing these
against the verifier expectation). -/
structure Jwt where
  sub : Option String
  exp : ℕ
  key : String
  alg : String
deriving DecidableEq, Repr

/-- Response model `Token` (server.py lines 46-49). -/
structure Token where
  access_token : Jwt
  token_type : String
  username : String
deriving DecidableEq, Repr

/-- Credential document stored in `db.users` (server.py lines 145-149). -/
structure UserDoc where
  username : String
  password : Hash
  created_at : ℕ
deriving DecidableEq, Repr

/-- Helper `create_access_token` (server.py lines 117-122): signs
`\x7b"sub": username, "exp": now + 30 days\x7d` with `SECRET_KEY`. -/
def create_access_token (sub : String) (now : ℕ) : Jwt :=
  { sub := some sub, exp := now + 30 * 86400, key := SECRET_KEY, alg := ALGORITHM }

/-- Dependency `get_current_user` (server.py lines 124-135): `jwt.decode`
checks the signature (key and algorithm), then expiry; a missing `sub` claim
is rejected as an invalid token. -/
def get_current_user (tok : Jwt) (now : ℕ) : Except ApiError String :=
  if tok.key ≠ SECRET_KEY ∨ tok.alg ≠ ALGORITHM then .error .tokenInvalid
  else if tok.exp ≤ now then .error .tokenExpired
  else
    match tok.sub with
    | none => .error .tokenInvalid
    | some username => .ok username

/-- Handler `register` (server.py lines 138-153): duplicate-username check,
salted hash, insert, token issuance. Returns the response together with the
`db.users` state after the call. -/
def register (user : UserRegister) (salt now : ℕ) (users : List UserDoc) :
    Except ApiError Token × List UserDoc :=
  match users.find? fun d => d.username == user.username with
  | some _ => (.error .duplicateUser, users)
  | none =>
      let user_doc : UserDoc :=
        { username := user.username
          password := get_password_hash salt user.password
          created_at := now }
      let access_token := create_access_token user.username now
      (.ok { access_token := access_token, token_type := "bearer", username := user.username },
       users ++ [user_doc])

/-- Handler `login` (server.py lines 155-162): the same `InvalidCredentials`
error for a missing user and for a failed hash verification. -/
def login (user : UserLogin) (now : ℕ) (users : List UserDoc) : Except ApiError Token :=
  match users.find? fun d => d.username == user.username with
  | none => .error .invalidCredentials
  | some db_user =>
      if verify_password user.password db_user.password then
        .ok { access_token := create_access_token user.username now
              token_type := "bearer", username := user.username }
      else .error .invalidCredentials

/-- Rendering of one CSV line from its fields. Quoting of delimiter characters
inside fields is a concern of the `csv` library, out of scope per the spec;
what matters below is that every emitted line with two or more fields contains
a comma. -/
def csvRow : List String → String
  | [] => ""
  | [f] => f
  | f :: g :: rest => f ++ "," ++ csvRow (g :: rest)

/-- Section body for seedlings received (server.py lines 344-356): on a
nonempty stream, the `DictWriter` header line followed by one row per record;
on an empty stream, nothing. -/
def receivedSectionRows (received : Collection SeedlingReceived) : List String :=
  if received.isEmpty then []
  else
    csvRow ["date", "type", "supplier", "price", "lot_number", "quantity"] ::
      received.map fun item =>
        csvRow [item.data.date, item.data.type, item.data.supplier,
                toString item.data.price, item.data.lot_number, toString item.data.quantity]

/-- Section body for delivery notes (server.py lines 359-369). -/
def deliverySectionRows (delivery : Collection DeliveryNote) : List String :=
  if delivery.isEmpty then []
  else
    csvRow ["date", "type", "expected_quantity", "actual_quantity"] ::
      delivery.map fun item =>
        csvRow [item.data.date, item.data.type,
                toString item.data.expected_quantity, toString item.data.actual_quantity]

/-- Section body for dead seedlings (server.py lines 372-381). -/
def deadSectionRows (dead : Collection DeadSeedling) : List String :=
  if dead.isEmpty then []
  else
    csvRow ["date", "type", "quantity"] ::
      dead.map fun item =>
        csvRow [item.data.date, item.data.type, toString item.data.quantity]

/-- Section body for discarded seedlings (server.py lines 384-393). -/
def discardedSectionRows (discarded : Collection DiscardedSeedling) : List String :=
  if discarded.isEmpty then []
  else
    csvRow ["date", "type", "quantity"] ::
      discarded.map fun item =>
        csvRow [item.data.date, item.data.type, toString item.data.quantity]

/-- Section body for nursery produced (server.py lines 396-407). -/
def producedSectionRows (produced : Collection NurseryProduced) : List String :=
  if produced.isEmpty then []
  else
    csvRow ["date", "type", "quantity", "parent_plant", "propagation_method"] ::
      produced.map fun item =>
        csvRow [item.data.date, item.data.type, toString item.data.quantity,
                item.data.parent_plant, item.data.propagation_method]

/-- Section header lines of the export, in the order they are written
(server.py lines 344, 359, 372, 384, 396). -/
def sectionHeaders : List String :=
  ["=== SEEDLINGS RECEIVED ===", "=== DELIVERY NOTES ===", "=== DEAD SEEDLINGS ===",
   "=== DISCARDED SEEDLINGS ===", "=== NURSERY PRODUCED ==="]

/-- Test for a section header line. -/
def isSectionHeaderLine (line : String) : Bool :=
  sectionHeaders.contains line

/-- Handler `export_to_csv` (server.py lines 331-414), as the list of lines of
the produced document: fetches five streams of the caller (distributed
seedlings are never fetched) and writes the five fixed sections;
`"\n=== X ===\n"` contributes a blank line before each header (two between
sections). -/
def export_to_csv (username : String) (db : Database) : List String :=
  let received := (db.seedlings_received.filter fun s => s.data.user_id == username).take 1000
  let delivery := (db.delivery_notes.filter fun s => s.data.user_id == username).take 1000
  let dead := (db.dead_seedlings.filter fun s => s.data.user_id == username).take 1000
  let discarded := (db.discarded_seedlings.filter fun s => s.data.user_id == username).take 1000
  let produced := (db.nursery_produced.filter fun s => s.data.user_id == username).take 1000
  [""] ++ ["=== SEEDLINGS RECEIVED ==="] ++ receivedSectionRows received ++
  ["", ""] ++ ["=== DELIVERY NOTES ==="] ++ deliverySectionRows delivery ++
  ["", ""] ++ ["=== DEAD SEEDLINGS ==="] ++ deadSectionRows dead ++
  ["", ""] ++ ["=== DISCARDED SEEDLINGS ==="] ++ discardedSectionRows discarded ++
  ["", ""] ++ ["=== NURSERY PRODUCED ==="] ++ producedSectionRows produced

/-! Theorems about the claims. -/

/-- Evaluation fact shared by several dashboard theorems. -/
theorem pyRound2_zero : pyRound2 0 = 0 := by norm_num [pyRound2, pyRoundInt]

/-- C1: the spec promises that `GET /api/dashboard/stats` returns a full
`DashboardStats` value, but the dict built by `get_dashboard_stats` omits the
required field `total_distributed`, so FastAPI response-model validation can
never accept it: the endpoint cannot return a `DashboardStats` JSON value. -/
theorem dashboard_response_missing_total_distributed :
    responseModelAccepts dashboardStatsFieldNames dashboardResponseKeys = false ∧
    "total_distributed" ∈ dashboardStatsFieldNames ∧
    "total_distributed" ∉ dashboardResponseKeys := by decide

/-- C9: every one of the six create handlers overwrites the payload field
`user_id` with the authenticated username before persisting, and the stored
document is exactly the returned one, so the client-supplied `user_id` never
reaches the store. -/
theorem create_sets_owner_to_caller (username : String) (newOid : ℕ)
    (p₁ : SeedlingReceived) (c₁ : Collection SeedlingReceived)
    (p₂ : DeliveryNote) (c₂ : Collection DeliveryNote)
    (p₃ : DeadSeedling) (c₃ : Collection DeadSeedling)
    (p₄ : DiscardedSeedling) (c₄ : Collection DiscardedSeedling)
    (p₅ : NurseryProduced) (c₅ : Collection NurseryProduced)
    (p₆ : DistributedSeedling) (c₆ : Collection DistributedSeedling) :
    ((create_seedling_received p₁ username newOid c₁).1.data.user_id = username ∧
      (create_seedling_received p₁ username newOid c₁).2 =
        c₁ ++ [(create_seedling_received p₁ username newOid c₁).1]) ∧
    ((create_delivery_note p₂ username newOid c₂).1.data.user_id = username ∧
      (create_delivery_note p₂ username newOid c₂).2 =
        c₂ ++ [(create_delivery_note p₂ username newOid c₂).1]) ∧
    ((create_dead_seedling p₃ username newOid c₃).1.data.user_id = username ∧
      (create_dead_seedling p₃ username newOid c₃).2 =
        c₃ ++ [(create_dead_seedling p₃ username newOid c₃).1]) ∧
    ((create_discarded_seedling p₄ username newOid c₄).1.data.user_id = username ∧
      (create_discarded_seedling p₄ username newOid c₄).2 =
        c₄ ++ [(create_discarded_seedling p₄ username newOid c₄).1]) ∧
    ((create_nursery_produced p₅ username newOid c₅).1.data.user_id = username ∧
      (create_nursery_produced p₅ username newOid c₅).2 =
        c₅ ++ [(create_nursery_produced p₅ username newOid c₅).1]) ∧
    ((create_distributed_seedling p₆ username newOid c₆).1.data.user_id = username ∧
      (create_distributed_seedling p₆ username newOid c₆).2 =
        c₆ ++ [(create_distributed_seedling p₆ username newOid c₆).1]) :=
  ⟨⟨rfl, rfl⟩, ⟨rfl, rfl⟩, ⟨rfl, rfl⟩, ⟨rfl, rfl⟩, ⟨rfl, rfl⟩, ⟨rfl, rfl⟩⟩

/-- C10: a delete request whose id path parameter is not a well-formed
ObjectId makes `ObjectId(id)` raise before the store is queried, so the
request ends in a generic 500 server error rather than the 404 `NotFound`
of the error taxonomy, and the store is untouched. -/
theorem delete_malformed_id_is_server_error (username : String)
    (coll : Collection SeedlingReceived) :
    delete_seedling_received "not-a-valid-objectid" username coll =
      (.error .serverError, coll) ∧
    ApiError.serverError.statusCode = 500 ∧
    ApiError.notFound.statusCode = 404 ∧
    ApiError.serverError ≠ ApiError.notFound :=
  ⟨rfl, rfl, rfl, by decide⟩

/-- Characterization of `computeStats` by unfolding its let bindings. -/
theorem computeStats_eq (received : Collection SeedlingReceived)
    (dead : Collection DeadSeedling) (discarded : Collection DiscardedSeedling)
    (produced : Collection NurseryProduced) :
    computeStats received dead discarded produced =
      { total_received := (received.map fun s => s.data.quantity).sum
        total_dead := (dead.map fun s => s.data.quantity).sum
        total_discarded := (discarded.map fun s => s.data.quantity).sum
        total_produced := (produced.map fun s => s.data.quantity).sum
        survival_rate :=
          pyRound2
            (if 0 < (received.map fun s => s.data.quantity).sum +
                  (produced.map fun s => s.data.quantity).sum then
              (((received.map fun s => s.data.quantity).sum +
                  (produced.map fun s => s.data.quantity).sum -
                  (dead.map fun s => s.data.quantity).sum -
                  (discarded.map fun s => s.data.quantity).sum : ℤ) : ℚ) /
                (((received.map fun s => s.data.quantity).sum +
                  (produced.map fun s => s.data.quantity).sum : ℤ) : ℚ) * 100
            else 0)
        total_in_nursery :=
          (received.map fun s => s.data.quantity).sum +
            (produced.map fun s => s.data.quantity).sum -
            (dead.map fun s => s.data.quantity).sum -
            (discarded.map fun s => s.data.quantity).sum } := rfl

/-- C4: a caller with no records in the four aggregated collections gets all
totals 0 and survival rate 0, and whenever the total input is 0 the survival
rate is the guarded else-branch value 0 (the division is never taken). -/
theorem dashboard_empty_owner_all_zero (username : String) (db : Database)
    (h1 : db.seedlings_received.filter (fun s => s.data.user_id == username) = [])
    (h2 : db.dead_seedlings.filter (fun s => s.data.user_id == username) = [])
    (h3 : db.discarded_seedlings.filter (fun s => s.data.user_id == username) = [])
    (h4 : db.nursery_produced.filter (fun s => s.data.user_id == username) = []) :
    get_dashboard_stats username db =
      { total_received := 0, total_dead := 0, total_discarded := 0,
        total_produced := 0, survival_rate := 0, total_in_nursery := 0 } ∧
    ∀ (received : Collection SeedlingReceived) (dead : Collection DeadSeedling)
      (discarded : Collection DiscardedSeedling) (produced : Collection NurseryProduced),
      (received.map fun s => s.data.quantity).sum +
          (produced.map fun s => s.data.quantity).sum = 0 →
      (computeStats received dead discarded produced).survival_rate = 0 := by
  constructor
  · unfold get_dashboard_stats
    rw [h1, h2, h3, h4]
    simp [computeStats_eq, pyRound2_zero]
  · intro received dead discarded produced h
    rw [computeStats_eq]
    simp only [h]
    norm_num [pyRound2_zero]

/-- Witness database: one received record owned by bob; the dashboard is
queried as alice. -/
theorem dashboard_empty_owner_all_zero_witness :
    get_dashboard_stats "alice"
      { seedlings_received :=
          [{ data := { date := "2024-01-01", type := "ficus", supplier := "acme",
                       price := 5, lot_number := "L1", quantity := 10,
                       user_id := "bob", created_at := 1 }, oid := 1 }] } =
      { total_received := 0, total_dead := 0, total_discarded := 0,
        total_produced := 0, survival_rate := 0, total_in_nursery := 0 } :=
  (dashboard_empty_owner_all_zero "alice"
    { seedlings_received :=
        [{ data := { date := "2024-01-01", type := "ficus", supplier := "acme",
                     price := 5, lot_number := "L1", quantity := 10,
                     user_id := "bob", created_at := 1 }, oid := 1 }] }
    rfl rfl rfl rfl).1

/-- Fixture for the worked dashboard example: received quantities 10 and 5. -/
def exampleReceived : Collection SeedlingReceived :=
  [{ data := { date := "2024-01-01", type := "ficus", supplier := "acme",
               price := 3, lot_number := "L1", quantity := 10,
               user_id := "alice", created_at := 1 }, oid := 1 },
   { data := { date := "2024-01-02", type := "rose", supplier := "acme",
               price := 4, lot_number := "L2", quantity := 5,
               user_id := "alice", created_at := 2 }, oid := 2 }]

/-- Fixture for the worked dashboard example: one dead record, quantity 2. -/
def exampleDead : Collection DeadSeedling :=
  [{ data := { date := "2024-01-03", type := "ficus", quantity := 2,
               user_id := "alice", created_at := 3 }, oid := 3 }]

/-- Fixture for the worked dashboard example: one discarded record,
quantity 1. -/
def exampleDiscarded : Collection DiscardedSeedling :=
  [{ data := { date := "2024-01-04", type := "rose", quantity := 1,
               user_id := "alice", created_at := 4 }, oid := 4 }]

/-- Fixture for the worked dashboard example: one produced record,
quantity 3. -/
def exampleProduced : Collection NurseryProduced :=
  [{ data := { date := "2024-01-05", type := "ficus", quantity := 3,
               parent_plant := "mother", propagation_method := "cutting",
               user_id := "alice", created_at := 5 }, oid := 5 }]

/-- Fixture with a negative received quantity (quantities are not validated
for non-negativity). -/
def negativeQuantityReceived : Collection SeedlingReceived :=
  [{ data := { date := "2024-02-01", type := "rose", supplier := "acme",
               price := 2, lot_number := "L9", quantity := -5,
               user_id := "alice", created_at := 0 }, oid := 9 }]

/-- C3 counterexample: with a single received record of quantity -5 (and no
other records) the code computes survival rate 0 (the guard takes the else
branch because total input -5 is not positive), while the unguarded formula
round(100 * totalInNursery / (totalReceived + totalProduced), 2) of the claim
evaluates to 100. -/
theorem dashboard_survival_formula_counterexample :
    (computeStats negativeQuantityReceived [] [] []).survival_rate = 0 ∧
    pyRound2 (100 *
        ((computeStats negativeQuantityReceived [] [] []).total_in_nursery : ℚ) /
        (((computeStats negativeQuantityReceived [] [] []).total_received : ℚ) +
         ((computeStats negativeQuantityReceived [] [] []).total_produced : ℚ))) = 100 ∧
    (0 : ℚ) ≠ 100 := by
  refine ⟨?_, ?_, by norm_num⟩
  · rw [computeStats_eq]
    norm_num [negativeQuantityReceived, pyRound2_zero]
  · rw [computeStats_eq]
    norm_num [negativeQuantityReceived, pyRound2, pyRoundInt]

/-- C3 (amended): the dashboard aggregation sums the quantity fields of the
four streams, totalInNursery is received + produced - dead - discarded, and
survivalRate equals round(100 * totalInNursery / (totalReceived +
totalProduced), 2) whenever totalReceived + totalProduced is positive and is 0
otherwise; on the worked example the result is exactly (15, 2, 1, 3, 83.33,
15). -/
theorem dashboard_aggregation_formula (received : Collection SeedlingReceived)
    (dead : Collection DeadSeedling) (discarded : Collection DiscardedSeedling)
    (produced : Collection NurseryProduced) :
    (computeStats received dead discarded produced).total_received =
        (received.map fun s => s.data.quantity).sum ∧
    (computeStats received dead discarded produced).total_dead =
        (dead.map fun s => s.data.quantity).sum ∧
    (computeStats received dead discarded produced).total_discarded =
        (discarded.map fun s => s.data.quantity).sum ∧
    (computeStats received dead discarded produced).total_produced =
        (produced.map fun s => s.data.quantity).sum ∧
    (computeStats received dead discarded produced).total_in_nursery =
        (computeStats received dead discarded produced).total_received +
          (computeStats received dead discarded produced).total_produced -
          (computeStats received dead discarded produced).total_dead -
          (computeStats received dead discarded produced).total_discarded ∧
    (0 < (computeStats received dead discarded produced).total_received +
          (computeStats received dead discarded produced).total_produced →
      (computeStats received dead discarded produced).survival_rate =
        pyRound2 (100 *
          ((computeStats received dead discarded produced).total_in_nursery : ℚ) /
          (((computeStats received dead discarded produced).total_received : ℚ) +
           ((computeStats received dead discarded produced).total_produced : ℚ)))) ∧
    ((computeStats received dead discarded produced).total_received +
          (computeStats received dead discarded produced).total_produced ≤ 0 →
      (computeStats received dead discarded produced).survival_rate = 0) ∧
    computeStats exampleReceived exampleDead exampleDiscarded exampleProduced =
      { total_received := 15, total_dead := 2, total_discarded := 1,
        total_produced := 3, survival_rate := 8333/100, total_in_nursery := 15 } := by
  rw [computeStats_eq]
  refine ⟨rfl, rfl, rfl, rfl, rfl, ?_, ?_, ?_⟩
  · intro h
    simp only at h ⊢
    rw [if_pos h]
    congr 1
    push_cast
    ring
  · intro h
    simp only at h ⊢
    rw [if_neg (by omega)]
    exact pyRound2_zero
  · rw [computeStats_eq]
    norm_num [exampleReceived, exampleDead, exampleDiscarded, exampleProduced,
      pyRound2, pyRoundInt]

/-- Witness for the positive-input branch of the amended survival-rate
formula, at the worked example (total input 18 > 0). -/
theorem dashboard_aggregation_formula_witness :
    0 < (computeStats exampleReceived exampleDead exampleDiscarded
          exampleProduced).total_received +
        (computeStats exampleReceived exampleDead exampleDiscarded
          exampleProduced).total_produced ∧
    (computeStats exampleReceived exampleDead exampleDiscarded
          exampleProduced).survival_rate =
      pyRound2 (100 *
        ((computeStats exampleReceived exampleDead exampleDiscarded
            exampleProduced).total_in_nursery : ℚ) /
        (((computeStats exampleReceived exampleDead exampleDiscarded
            exampleProduced).total_received : ℚ) +
         ((computeStats exampleReceived exampleDead exampleDiscarded
            exampleProduced).total_produced : ℚ))) :=
  ⟨by decide,
   (dashboard_aggregation_formula exampleReceived exampleDead exampleDiscarded
      exampleProduced).2.2.2.2.2.1 (by decide)⟩

/-- C6: after a successful registration of a username, registering the same
username again fails with `DuplicateUser` (HTTP 400) and leaves the user store
exactly as it was after the first call: no second credential record. -/
theorem register_duplicate_rejected (u u2 : UserRegister)
    (salt now salt2 now2 : ℕ) (users : List UserDoc)
    (hname : u2.username = u.username)
    (hfresh : users.find? (fun d => d.username == u.username) = none) :
    ∃ tok users2,
      register u salt now users = (.ok tok, users2) ∧
      register u2 salt2 now2 users2 = (.error .duplicateUser, users2) ∧
      ApiError.duplicateUser.statusCode = 400 := by
  refine ⟨{ access_token := create_access_token u.username now, token_type := "bearer",
            username := u.username },
          users ++ [{ username := u.username, password := get_password_hash salt u.password,
                      created_at := now }], ?_, ?_, rfl⟩
  · unfold register
    rw [hfresh]
  · unfold register
    rw [hname, List.find?_append, hfresh]
    simp

/-- Witness: registering alice twice on an empty user store. -/
theorem register_duplicate_rejected_witness :
    ∃ tok users2,
      register { username := "alice", password := "pw1" } 0 0 [] = (.ok tok, users2) ∧
      register { username := "alice", password := "pw2" } 1 1 users2 =
        (.error .duplicateUser, users2) ∧
      ApiError.duplicateUser.statusCode = 400 :=
  register_duplicate_rejected { username := "alice", password := "pw1" }
    { username := "alice", password := "pw2" } 0 0 1 1 [] rfl rfl

/-- C5: registering a fresh (username, password) pair and then logging in with
the same pair succeeds, and the issued token, when verified before its expiry,
yields exactly that username as its subject. -/
theorem register_login_verify_roundtrip (u : UserRegister)
    (salt now now2 vt : ℕ) (users : List UserDoc)
    (hfresh : users.find? (fun d => d.username == u.username) = none)
    (hvt : vt < now2 + 30 * 86400) :
    ∃ tok users2 tok2,
      register u salt now users = (.ok tok, users2) ∧
      login { username := u.username, password := u.password } now2 users2 = .ok tok2 ∧
      get_current_user tok2.access_token vt = .ok u.username := by
  refine ⟨{ access_token := create_access_token u.username now, token_type := "bearer",
            username := u.username },
          users ++ [{ username := u.username, password := get_password_hash salt u.password,
                      created_at := now }],
          { access_token := create_access_token u.username now2, token_type := "bearer",
            username := u.username }, ?_, ?_, ?_⟩
  · unfold register
    rw [hfresh]
  · unfold login
    dsimp only
    rw [List.find?_append, hfresh]
    simp [verify_password, get_password_hash]
  · unfold get_current_user create_access_token
    simp only []
    rw [if_neg, if_neg]
    · omega
    · simp

/-- Witness: register alice, log in at time 5, verify the login token at
time 10, well before expiry. -/
theorem register_login_verify_roundtrip_witness :
    ∃ tok users2 tok2,
      register { username := "alice", password := "hunter2" } 0 0 [] =
        (.ok tok, users2) ∧
      login { username := "alice", password := "hunter2" } 5 users2 = .ok tok2 ∧
      get_current_user tok2.access_token 10 = .ok "alice" :=
  register_login_verify_roundtrip { username := "alice", password := "hunter2" }
    0 0 5 10 [] rfl (by decide)

/-- Helper: `delete_one` deletes nothing when no document matches the
filter, and leaves the collection unchanged. -/
theorem deleteOneBy_no_match {α : Type} (p : α → Bool) (l : List α)
    (h : ∀ x ∈ l, p x = false) : deleteOneBy p l = (0, l) := by
  induction l with
  | nil => rfl
  | cons x xs ih =>
      have hx := h x (List.mem_cons_self x xs)
      have ihx := ih fun y hy => h y (List.mem_cons_of_mem x hy)
      simp [deleteOneBy, hx, ihx]

/-- Helper: every record returned by the list handler is owned by the
caller. -/
theorem mem_get_seedlings_received_owner (username : String)
    (coll : Collection SeedlingReceived) (x : Stored SeedlingReceived)
    (hx : x ∈ get_seedlings_received username coll) :
    x.data.user_id = username := by
  unfold get_seedlings_received at hx
  have h1 := List.mem_of_mem_take hx
  have h2 := (List.perm_insertionSort
      (fun a b : Stored SeedlingReceived => b.data.created_at ≤ a.data.created_at)
      (coll.filter fun s => s.data.user_id == username)).mem_iff.mp h1
  have h3 := List.mem_filter.mp h2
  simpa using h3.2

/-- C2: with distinct owners A and B, a record of B is never in the list A
sees, and A deleting by the id of that record (with ids unique across the
collection, as MongoDB guarantees) gets `NotFound` and leaves the collection
unchanged, so the record of B is still there. -/
theorem owner_scoping_list_and_delete (A B : String)
    (coll : Collection SeedlingReceived) (r : Stored SeedlingReceived)
    (idStr : String) (hAB : A ≠ B) (hr : r ∈ coll) (hB : r.data.user_id = B)
    (hnodup : (coll.map fun d => d.oid).Nodup)
    (hid : objectIdFromString idStr = some r.oid) :
    r ∉ get_seedlings_received A coll ∧
    delete_seedling_received idStr A coll = (.error .notFound, coll) := by
  constructor
  · intro hmem
    have hA := mem_get_seedlings_received_owner A coll r hmem
    rw [hB] at hA
    exact hAB hA.symm
  · unfold delete_seedling_received
    rw [hid]
    have hno : ∀ d ∈ coll, (d.oid == r.oid && d.data.user_id == A) = false := by
      intro d hd
      by_cases hoid : d.oid = r.oid
      · have hdr : d = r := List.inj_on_of_nodup_map hnodup hd hr hoid
        subst hdr
        simp only [Bool.and_eq_false_iff, beq_eq_false_iff_ne]
        exact Or.inr (by rw [hB]; exact fun hcontra => hAB hcontra.symm)
      · simp [hoid]
    dsimp only
    rw [deleteOneBy_no_match _ _ hno]
    simp

/-- Witness: collection holding exactly one record of bob with id 1; alice
lists and deletes by the well-formed id string of that record. -/
theorem owner_scoping_list_and_delete_witness :
    ({ data := { date := "2024-01-01", type := "ficus", supplier := "acme",
                 price := 1, lot_number := "L1", quantity := 7,
                 user_id := "bob", created_at := 5 }, oid := 1 } :
        Stored SeedlingReceived) ∉
      get_seedlings_received "alice"
        [{ data := { date := "2024-01-01", type := "ficus", supplier := "acme",
                     price := 1, lot_number := "L1", quantity := 7,
                     user_id := "bob", created_at := 5 }, oid := 1 }] ∧
    delete_seedling_received "000000000000000000000001" "alice"
        [{ data := { date := "2024-01-01", type := "ficus", supplier := "acme",
                     price := 1, lot_number := "L1", quantity := 7,
                     user_id := "bob", created_at := 5 }, oid := 1 }] =
      (.error .notFound,
       [{ data := { date := "2024-01-01", type := "ficus", supplier := "acme",
                    price := 1, lot_number := "L1", quantity := 7,
                    user_id := "bob", created_at := 5 }, oid := 1 }]) :=
  owner_scoping_list_and_delete "alice" "bob"
    [{ data := { date := "2024-01-01", type := "ficus", supplier := "acme",
                 price := 1, lot_number := "L1", quantity := 7,
                 user_id := "bob", created_at := 5 }, oid := 1 }]
    { data := { date := "2024-01-01", type := "ficus", supplier := "acme",
                price := 1, lot_number := "L1", quantity := 7,
                user_id := "bob", created_at := 5 }, oid := 1 }
    "000000000000000000000001" (by decide) (by decide) rfl (by decide) (by decide)

/-- C7: the list handler returns at most 1000 records, ordered
newest-created-first (each record has a creation timestamp greater than or
equal to that of every record after it). -/
theorem list_capped_and_sorted (username : String)
    (coll : Collection SeedlingReceived) :
    (get_seedlings_received username coll).length ≤ 1000 ∧
    (get_seedlings_received username coll).Pairwise
      (fun a b => b.data.created_at ≤ a.data.created_at) := by
  constructor
  · exact List.length_take_le _ _
  · unfold get_seedlings_received
    haveI : IsTotal (Stored SeedlingReceived)
        (fun a b => b.data.created_at ≤ a.data.created_at) :=
      ⟨fun a b => Nat.le_total _ _⟩
    haveI : IsTrans (Stored SeedlingReceived)
        (fun a b => b.data.created_at ≤ a.data.created_at) :=
      ⟨fun a b c h1 h2 => Nat.le_trans h2 h1⟩
    exact List.Pairwise.sublist (List.take_sublist _ _)
      (List.sorted_insertionSort _ _)

/-- Helper: a rendered CSV line with at least two fields contains a comma. -/
theorem comma_mem_csvRow (a b : String) (rest : List String) :
    ',' ∈ (csvRow (a :: b :: rest)).data := by
  show ',' ∈ (a ++ "," ++ csvRow (b :: rest)).data
  rw [String.data_append, String.data_append]
  exact List.mem_append.mpr (Or.inl (List.mem_append.mpr (Or.inr (by decide))))

/-- Helper: no section header contains a comma. -/
theorem sectionHeaders_comma_free : ∀ h ∈ sectionHeaders, ',' ∉ h.data := by
  decide

/-- Helper: a rendered CSV line with at least two fields is never a section
header. -/
theorem csvRow_not_header (a b : String) (rest : List String) :
    isSectionHeaderLine (csvRow (a :: b :: rest)) = false := by
  simp only [isSectionHeaderLine, List.elem_eq_mem, decide_eq_false_iff_not]
  intro hmem
  exact sectionHeaders_comma_free _ hmem (comma_mem_csvRow a b rest)

/-- Helper: a section body (field-header line plus data rows, or nothing)
contains no section header line. -/
theorem filter_header_section {α : Type} (l : List α) (h0 : String)
    (f : α → String) (hh : isSectionHeaderLine h0 = false)
    (hf : ∀ x, isSectionHeaderLine (f x) = false) :
    (if l.isEmpty then [] else h0 :: l.map f).filter isSectionHeaderLine = [] := by
  split
  · rfl
  · refine List.filter_eq_nil_iff.mpr ?_
    intro a ha
    rcases List.mem_cons.mp ha with h | h
    · subst h
      simp [hh]
    · obtain ⟨x, _, rfl⟩ := List.mem_map.mp h
      simp [hf]

/-- C8: the export always contains exactly the five section headers, in the
fixed order Received, Delivery Notes, Dead, Discarded, Produced; changing the
distributed-seedlings collection never changes the export; and a caller with
no records in any of the five exported collections gets exactly the five
headers (with the blank separator lines) and no data rows. -/
theorem export_sections (username : String) (db : Database) :
    (export_to_csv username db).filter isSectionHeaderLine = sectionHeaders ∧
    (∀ dist : Collection DistributedSeedling,
      export_to_csv username { db with distributed_seedlings := dist } =
        export_to_csv username db) ∧
    ((db.seedlings_received.filter (fun s => s.data.user_id == username) = [] ∧
      db.delivery_notes.filter (fun s => s.data.user_id == username) = [] ∧
      db.dead_seedlings.filter (fun s => s.data.user_id == username) = [] ∧
      db.discarded_seedlings.filter (fun s => s.data.user_id == username) = [] ∧
      db.nursery_produced.filter (fun s => s.data.user_id == username) = []) →
      export_to_csv username db =
        ["", "=== SEEDLINGS RECEIVED ===", "", "", "=== DELIVERY NOTES ===",
         "", "", "=== DEAD SEEDLINGS ===", "", "", "=== DISCARDED SEEDLINGS ===",
         "", "", "=== NURSERY PRODUCED ==="]) := by
  have hrec : ∀ l, (receivedSectionRows l).filter isSectionHeaderLine = [] := by
    intro l
    unfold receivedSectionRows
    exact filter_header_section _ _ _ (by decide) fun x => csvRow_not_header _ _ _
  have hdel : ∀ l, (deliverySectionRows l).filter isSectionHeaderLine = [] := by
    intro l
    unfold deliverySectionRows
    exact filter_header_section _ _ _ (by decide) fun x => csvRow_not_header _ _ _
  have hdead : ∀ l, (deadSectionRows l).filter isSectionHeaderLine = [] := by
    intro l
    unfold deadSectionRows
    exact filter_header_section _ _ _ (by decide) fun x => csvRow_not_header _ _ _
  have hdisc : ∀ l, (discardedSectionRows l).filter isSectionHeaderLine = [] := by
    intro l
    unfold discardedSectionRows
    exact filter_header_section _ _ _ (by decide) fun x => csvRow_not_header _ _ _
  have hprod : ∀ l, (producedSectionRows l).filter isSectionHeaderLine = [] := by
    intro l
    unfold producedSectionRows
    exact filter_header_section _ _ _ (by decide) fun x => csvRow_not_header _ _ _
  refine ⟨?_, fun dist => rfl, ?_⟩
  · simp only [export_to_csv, List.filter_append, hrec, hdel, hdead, hdisc, hprod]
    decide
  · intro ⟨h1, h2, h3, h4, h5⟩
    simp only [export_to_csv, h1, h2, h3, h4, h5]
    rfl

/-- Witness: a database whose only records (a received one and a distributed
one) belong to bob; alice exports and gets the five bare section headers. -/
theorem export_sections_witness :
    export_to_csv "alice"
      { seedlings_received :=
          [{ data := { date := "2024-01-01", type := "ficus", supplier := "acme",
                       price := 2, lot_number := "L3", quantity := 4,
                       user_id := "bob", created_at := 7 }, oid := 3 }],
        distributed_seedlings :=
          [{ data := { date := "2024-01-02", type := "rose", quantity := 2,
                       destination := "park", location := "north",
                       user_id := "bob", created_at := 8 }, oid := 4 }] } =
      ["", "=== SEEDLINGS RECEIVED ===", "", "", "=== DELIVERY NOTES ===",
       "", "", "=== DEAD SEEDLINGS ===", "", "", "=== DISCARDED SEEDLINGS ===",
       "", "", "=== NURSERY PRODUCED ==="] :=
  (export_sections "alice"
    { seedlings_received :=
        [{ data := { date := "2024-01-01", type := "ficus", supplier := "acme",
                     price := 2, lot_number := "L3", quantity := 4,
                     user_id := "bob", created_at := 7 }, oid := 3 }],
      distributed_seedlings :=
        [{ data := { date := "2024-01-02", type := "rose", quantity := 2,
                     destination := "park", location := "north",
                     user_id := "bob", created_at := 8 }, oid := 4 }] }).2.2
    (by exact ⟨rfl, rfl, rfl, rfl, rfl⟩)
